import Mathlib

/-!
Shallow embedding of the `multer-s3-v2` storage adapter (`src/index.js`).

Streams are modelled as lists of chunks (a chunk is a list of bytes).
Callback-style asynchronous code is modelled by explicit outcome types:
a strategy that calls its callback with an error or a value becomes a
function into `Except JErr Val`; the content-type strategy, whose callback
may additionally never fire (the `'data'` event of an empty stream), gets
a three-valued outcome.  Thrown (synchronous) JavaScript exceptions are
kept distinct from callback-reported errors, because `_handleFile` lets
them escape without invoking the completion callback.

External collaborators (the `file-type` sniffing library, the `is-svg`
test, and the S3 client) are parameters of the model: the adapter's
behaviour is proved for every behaviour of the collaborators.
-/

namespace MulterS3

/-- A byte chunk, as emitted by a Node readable stream. -/
abbrev Chunk := List Nat

/-- A byte stream: the (finite) sequence of chunks it emits. -/
abbrev Stream := List Chunk

/-- JavaScript errors thrown or passed to callbacks by `src/index.js`:
`TypeError` (construction-time type checks, property access on `null`/
`undefined`) versus plain `Error` (e.g. `bucket is required`, the
mismatch error). -/
inductive JErr where
  | typeError (msg : String)
  | error (msg : String)
deriving DecidableEq, Repr

/-- Attribute values produced by strategies and stored in upload params /
results (`null`, strings, numbers are all the model needs). -/
inductive Val where
  | vnull
  | vstr (s : String)
  | vnat (n : Nat)
deriving DecidableEq, Repr

/-- JavaScript truthiness for `Val` (used by `if (opts.contentDisposition)`). -/
def Val.truthy : Val → Bool
  | .vnull => false
  | .vstr s => !s.isEmpty
  | .vnat n => n != 0

/-- The request context.  `randomBytes` models the outcome of the
`crypto.randomBytes(16)` call of `defaultKey` for this request: either the
error it reports or the hex string of the generated bytes. -/
structure Req where
  randomBytes : Except JErr String

/-- The incoming file descriptor handed over by the middleware.  `bucket`
and `key` are only populated on records passed to `_removeFile` (multer
passes the stored file record back for removal). -/
structure File where
  fieldname : String
  originalname : String
  mimetype : String
  stream : Stream
  bucket : Val := .vnull
  key : Val := .vnull

/-- A per-attribute strategy `(req, file, cb)`: the callback is invoked
once with an error or a value. -/
abbrev Strategy := Req → File → Except JErr Val

/-- Outcome of the content-type strategy's callback
`cb(err, mime, replacementStream)`.  `never` records that the callback is
never invoked (e.g. `autoContentType` on a stream that emits no `'data'`
event). -/
inductive CTResult where
  | ok (mime : String) (replacement : Option Stream)
  | err (e : JErr)
  | never
deriving DecidableEq, Repr

/-- A content-type strategy. -/
abbrev CTStrategy := Req → File → CTResult

/-- Function `staticValue` from `src/index.js:6`: a strategy that always reports
the given constant. -/
def staticValue (value : Val) : Strategy :=
  fun _req _file => .ok value

/-- Function `defaultKey` from `src/index.js:22`: reports the hex of 16 random
bytes, or the error of `randomBytes`. -/
def defaultKey : Strategy :=
  fun req _file => req.randomBytes.map Val.vstr

/-- Function `defaultContentType` from `src/index.js:13` (also exported as
`DEFAULT_CONTENT_TYPE`): the constant strategy for
`application/octet-stream`, no replacement stream. -/
def defaultContentType : CTStrategy :=
  fun _req _file => .ok "application/octet-stream" none

/-- The mime classification of `autoContentType` (`src/index.js:32-40`),
given the outcomes of the external collaborators on the first chunk:
`detect` models `fileTypeFromBuffer` (the `file-type` library, `some`
carrying `type.mime`) and `svg` models `isSvg`. -/
def autoContentTypeMime (detect : Chunk → Option String) (svg : Chunk → Bool)
    (firstChunk : Chunk) : String :=
  match detect firstChunk with
  | some m => m
  | none => if svg firstChunk then "image/svg+xml" else "application/octet-stream"

/-- Function `autoContentType` from `src/index.js:28` (exported as
`AUTO_CONTENT_TYPE`): waits for the first `'data'` chunk, classifies it,
and reports a replacement `PassThrough` stream that first replays the
consumed chunk (`outStream.write(firstChunk)`) and then pipes the rest of
the original stream (`file.stream.pipe(outStream)`).  On a stream that
emits no data the `'data'` handler — and hence the callback — never runs. -/
def autoContentType (detect : Chunk → Option String) (svg : Chunk → Bool) : CTStrategy :=
  fun _req file =>
    match file.stream with
    | [] => .never
    | firstChunk :: rest =>
        .ok (autoContentTypeMime detect svg firstChunk) (some (firstChunk :: rest))

/-- A progress notification (`httpUploadProgress` event).  `total = 0`
models a missing or zero `ev.total`, both falsy in JavaScript. -/
structure ProgressEvent where
  total : Nat
deriving DecidableEq, Repr

/-- The raw completion value of the S3 client's `send` callback. -/
structure RawResult where
  Location : Val
  ETag : Val
  VersionId : Val
deriving DecidableEq, Repr

/-- What one `upload(params)` call does: the progress events it emits
before completing, and the completion callback's outcome. -/
structure UploadOutcome where
  progress : List ProgressEvent
  result : Except JErr RawResult

/-- Parameters of an S3 `upload` call as assembled at
`src/index.js:175-190`.  `ContentDisposition` is `none` when the key is
omitted from `params` (falsy resolved value). -/
structure Params where
  Bucket : Val
  Key : Val
  ACL : Val
  CacheControl : Val
  ContentType : String
  Metadata : Val
  StorageClass : Val
  ServerSideEncryption : Val
  SSEKMSKeyId : Val
  Body : Stream
  ContentDisposition : Option Val
deriving DecidableEq, Repr

/-- Parameters of an S3 `deleteObject` call (`src/index.js:224`). -/
structure DeleteParams where
  Bucket : Val
  Key : Val
deriving DecidableEq, Repr

/-- The storage collaborator (AWS S3 client): its behaviour on `upload`
and `deleteObject` calls. -/
structure S3Client where
  uploadBehavior : Params → UploadOutcome
  deleteBehavior : DeleteParams → Except JErr Val

/-- A stream transform instance (a `stream.Transform`): a function from
the chunk sequence it is piped to its output chunk sequence. -/
abbrev StreamTransform := Stream → Stream

/-- The `transforms` option: absent, a single shared factory, or a map
from field names to factories.  A factory is modelled by the transform
instance it produces when invoked. -/
inductive TransformsOpt where
  | noneOpt
  | shared (t : StreamTransform)
  | perField (m : List (String × StreamTransform))

/-- A raw option value with JavaScript `typeof` distinctions: `φ` is the
payload of a function-typed value, `ω` of an object-typed one (`nullv`
also has `typeof 'object'`). -/
inductive OptVal (φ : Type) (ω : Type) where
  | undef
  | nullv
  | str (s : String)
  | num (n : Int)
  | boolv (b : Bool)
  | func (f : φ)
  | obj (o : ω)

/-- The options object accepted by the module's exported constructor. -/
structure Opts where
  s3 : OptVal Unit S3Client
  bucket : OptVal Strategy Unit
  key : OptVal Strategy Unit
  acl : OptVal Strategy Unit
  contentType : OptVal CTStrategy Unit
  metadata : OptVal Strategy Unit
  cacheControl : OptVal Strategy Unit
  contentDisposition : OptVal Strategy Unit
  storageClass : OptVal Strategy Unit
  serverSideEncryption : OptVal Strategy Unit
  sseKmsKeyId : OptVal Strategy Unit
  throwMimeTypeConflictErrors : Bool := false
  transforms : TransformsOpt := .noneOpt

/-- The constructed adapter: the fields `S3Storage` assigns to `this`.
`s3` is `none` when the (accepted) option value was `null`. -/
structure Storage where
  s3 : Option S3Client
  getBucket : Strategy
  getKey : Strategy
  getAcl : Strategy
  getContentType : CTStrategy
  getMetadata : Strategy
  getCacheControl : Strategy
  getContentDisposition : Strategy
  getStorageClass : Strategy
  getSSE : Strategy
  getSSEKMS : Strategy
  throwMimeTypeConflictErrors : Bool
  transforms : TransformsOpt

/-- The `S3Storage` constructor (`src/index.js:85-160`): one `switch` on
`typeof` per option, throwing synchronously on unsupported shapes.
Modelled as `Except`: `.error` is a thrown exception, `.ok` the
constructed adapter. -/
def S3Storage (opts : Opts) : Except JErr Storage := do
  let s3 ← match opts.s3 with
    | .nullv => .ok Option.none
    | .obj c => .ok (Option.some c)
    | _ => .error (.typeError "Expected opts.s3 to be object")
  let getBucket ← match opts.bucket with
    | .func f => .ok f
    | .str s => .ok (staticValue (.vstr s))
    | .undef => .error (.error "bucket is required")
    | _ => .error (.typeError "Expected opts.bucket to be undefined, string or function")
  let getKey ← match opts.key with
    | .func f => .ok f
    | .undef => .ok defaultKey
    | _ => .error (.typeError "Expected opts.key to be undefined or function")
  let getAcl ← match opts.acl with
    | .func f => .ok f
    | .str s => .ok (staticValue (.vstr s))
    | .undef => .ok (staticValue (.vstr "private"))
    | _ => .error (.typeError "Expected opts.acl to be undefined, string or function")
  let getContentType ← match opts.contentType with
    | .func f => .ok f
    | .undef => .ok defaultContentType
    | _ => .error (.typeError "Expected opts.contentType to be undefined or function")
  let getMetadata ← match opts.metadata with
    | .func f => .ok f
    | .undef => .ok (staticValue .vnull)
    | _ => .error (.typeError "Expected opts.metadata to be undefined or function")
  let getCacheControl ← match opts.cacheControl with
    | .func f => .ok f
    | .str s => .ok (staticValue (.vstr s))
    | .undef => .ok (staticValue .vnull)
    | _ => .error (.typeError "Expected opts.cacheControl to be undefined, string or function")
  let getContentDisposition ← match opts.contentDisposition with
    | .func f => .ok f
    | .str s => .ok (staticValue (.vstr s))
    | .undef => .ok (staticValue .vnull)
    | _ => .error (.typeError "Expected opts.contentDisposition to be undefined, string or function")
  let getStorageClass ← match opts.storageClass with
    | .func f => .ok f
    | .str s => .ok (staticValue (.vstr s))
    | .undef => .ok (staticValue (.vstr "STANDARD"))
    | _ => .error (.typeError "Expected opts.storageClass to be undefined, string or function")
  let getSSE ← match opts.serverSideEncryption with
    | .func f => .ok f
    | .str s => .ok (staticValue (.vstr s))
    | .undef => .ok (staticValue .vnull)
    | _ => .error (.typeError "Expected opts.serverSideEncryption to be undefined, string or function")
  let getSSEKMS ← match opts.sseKmsKeyId with
    | .func f => .ok f
    | .str s => .ok (staticValue (.vstr s))
    | .undef => .ok (staticValue .vnull)
    | _ => .error (.typeError "Expected opts.sseKmsKeyId to be undefined, string, or function")
  .ok {
    s3 := s3
    getBucket := getBucket
    getKey := getKey
    getAcl := getAcl
    getContentType := getContentType
    getMetadata := getMetadata
    getCacheControl := getCacheControl
    getContentDisposition := getContentDisposition
    getStorageClass := getStorageClass
    getSSE := getSSE
    getSSEKMS := getSSEKMS
    throwMimeTypeConflictErrors := opts.throwMimeTypeConflictErrors
    transforms := opts.transforms
  }

/-- The resolved attribute set passed to `_handleFile`'s inner callback
(`src/index.js:68-80`). -/
structure CollectedOpts where
  bucket : Val
  key : Val
  acl : Val
  metadata : Val
  cacheControl : Val
  contentDisposition : Val
  storageClass : Val
  contentType : String
  replacementStream : Option Stream
  serverSideEncryption : Val
  sseKmsKeyId : Val

/-- Outcome of `collect`: the callback receives an error or the resolved
set, or — when the content-type strategy's callback never fires — is
never invoked. -/
inductive CollectOutcome where
  | ok (opts : CollectedOpts)
  | err (e : JErr)
  | never

/-- Function `collect` from `src/index.js:51`: run the nine attribute strategies
(via `run-parallel`, first error wins), then the content-type strategy,
and assemble the resolved set.  The parallel fan-out is sequentialised in
the listed order; `run-parallel` reports the first error to occur, which
for the deterministic model is the first failing strategy in list order. -/
def collect (storage : Storage) (req : Req) (file : File) : CollectOutcome :=
  match storage.getBucket req file with
  | .error e => .err e
  | .ok bucket =>
  match storage.getKey req file with
  | .error e => .err e
  | .ok key =>
  match storage.getAcl req file with
  | .error e => .err e
  | .ok acl =>
  match storage.getMetadata req file with
  | .error e => .err e
  | .ok metadata =>
  match storage.getCacheControl req file with
  | .error e => .err e
  | .ok cacheControl =>
  match storage.getContentDisposition req file with
  | .error e => .err e
  | .ok contentDisposition =>
  match storage.getStorageClass req file with
  | .error e => .err e
  | .ok storageClass =>
  match storage.getSSE req file with
  | .error e => .err e
  | .ok sse =>
  match storage.getSSEKMS req file with
  | .error e => .err e
  | .ok sseKms =>
    match storage.getContentType req file with
    | .err e => .err e
    | .never => .never
    | .ok contentType replacementStream =>
        .ok {
          bucket := bucket
          key := key
          acl := acl
          metadata := metadata
          cacheControl := cacheControl
          contentDisposition := contentDisposition
          storageClass := storageClass
          contentType := contentType
          replacementStream := replacementStream
          serverSideEncryption := sse
          sseKmsKeyId := sseKms
        }

/-- The transform-resolution expression of `src/index.js:168`:
`!this.transforms ? null : typeof this.transforms === 'function' ?
this.transforms() : this.transforms[file.fieldname]()`.  Looking up a
missing field name yields `undefined`, and calling `undefined` throws a
`TypeError` — modelled as the `.error` case. -/
def resolveTransform (transforms : TransformsOpt) (fieldname : String) :
    Except JErr (Option StreamTransform) :=
  match transforms with
  | .noneOpt => .ok none
  | .shared t => .ok (some t)
  | .perField m =>
    match m.lookup fieldname with
    | some t => .ok (some t)
    | none => .error (.typeError "this.transforms[file.fieldname] is not a function")

/-- Pipe a stream through an optional transform (`src/index.js:170-173`:
`fileStream.pipe(transform)` when a transform was resolved, the stream
itself otherwise). -/
def applyTransform : Option StreamTransform → Stream → Stream
  | some t, s => t s
  | none, s => s

/-- The size-tracking fold of `src/index.js:198-200`: each
`httpUploadProgress` event with a truthy `total` overwrites
`currentSize`, which starts at `0`. -/
def trackSize (events : List ProgressEvent) : Nat :=
  events.foldl (fun acc ev => if ev.total != 0 then ev.total else acc) 0

/-- The `MIMETYPE_MISMATCH` error message of `src/index.js:193`. -/
def mismatchMessage (detected declared originalname : String) : String :=
  "MIMETYPE_MISMATCH: Actual content-type \"" ++ detected ++
    "\" does not match the mime-type \"" ++ declared ++
    "\" assumed by the file extension for file \"" ++ originalname ++ "\""

/-- The upload-result record built at `src/index.js:205-218`. -/
structure UploadResult where
  size : Nat
  bucket : Val
  key : Val
  acl : Val
  contentType : String
  contentDisposition : Val
  storageClass : Val
  serverSideEncryption : Val
  metadata : Val
  location : Val
  etag : Val
  versionId : Val
deriving DecidableEq, Repr

deriving instance DecidableEq for Except

/-- How a `_handleFile` invocation ends: the completion callback is
invoked exactly once (with an error or a result), a synchronous exception
escapes without any callback invocation, or nothing ever completes
(the callback is invoked zero times). -/
inductive HFOutcome where
  | callback (r : Except JErr UploadResult)
  | thrown (e : JErr)
  | hang
deriving DecidableEq, Repr

/-- Result of a `_handleFile` invocation, instrumented with the `upload`
call made to the storage collaborator: `uploadParams = some p` exactly
when `this.s3.upload(p)` was invoked. -/
structure HFResult where
  outcome : HFOutcome
  uploadParams : Option Params
deriving DecidableEq, Repr

/-- The upload `params` object assembled at `src/index.js:175-190`:
`ContentDisposition` is added only when the resolved value is truthy. -/
def mkParams (opts : CollectedOpts) (body : Stream) : Params :=
  { Bucket := opts.bucket
    Key := opts.key
    ACL := opts.acl
    CacheControl := opts.cacheControl
    ContentType := opts.contentType
    Metadata := opts.metadata
    StorageClass := opts.storageClass
    ServerSideEncryption := opts.serverSideEncryption
    SSEKMSKeyId := opts.sseKmsKeyId
    Body := body
    ContentDisposition :=
      if opts.contentDisposition.truthy then some opts.contentDisposition else none }

/-- Method `S3Storage.prototype._handleFile` (`src/index.js:162-221`): resolve
attributes, resolve the transform, pick the replacement stream over the
original and pipe it through the transform, check the mime-type-mismatch
guard, then delegate to `this.s3.upload(params)`, folding progress events
into `currentSize` and normalising the completion callback's outcome. -/
def Storage.handleFile (storage : Storage) (req : Req) (file : File) : HFResult :=
  match collect storage req file with
  | .never => { outcome := .hang, uploadParams := none }
  | .err e => { outcome := .callback (.error e), uploadParams := none }
  | .ok opts =>
    match resolveTransform storage.transforms file.fieldname with
    | .error e => { outcome := .thrown e, uploadParams := none }
    | .ok transform =>
      let src := opts.replacementStream.getD file.stream
      let fileStream := applyTransform transform src
      let params := mkParams opts fileStream
      if storage.throwMimeTypeConflictErrors
          && (opts.contentType != "application/octet-stream")
          && (file.mimetype != opts.contentType) then
        { outcome := .callback (.error (.error
            (mismatchMessage opts.contentType file.mimetype file.originalname)))
          uploadParams := none }
      else
        match storage.s3 with
        | none =>
          { outcome := .thrown (.typeError "Cannot read properties of null (reading upload)")
            uploadParams := none }
        | some client =>
          let out := client.uploadBehavior params
          let currentSize := trackSize out.progress
          match out.result with
          | .error e => { outcome := .callback (.error e), uploadParams := some params }
          | .ok result =>
            { outcome := .callback (.ok {
                size := currentSize
                bucket := opts.bucket
                key := opts.key
                acl := opts.acl
                contentType := opts.contentType
                contentDisposition := opts.contentDisposition
                storageClass := opts.storageClass
                serverSideEncryption := opts.serverSideEncryption
                metadata := opts.metadata
                location := result.Location
                etag := result.ETag
                versionId := result.VersionId })
              uploadParams := some params }

/-- Result of a `_removeFile` invocation, instrumented with the single
`deleteObject` call made: `called p out` records the parameters passed
and the collaborator's callback outcome, surfaced unchanged. -/
inductive RFResult where
  | thrown (e : JErr)
  | called (p : DeleteParams) (out : Except JErr Val)
deriving DecidableEq, Repr

/-- Method `S3Storage.prototype._removeFile` (`src/index.js:223-225`):
`this.s3.deleteObject({ Bucket: file.bucket, Key: file.key }, cb)`. -/
def Storage.removeFile (storage : Storage) (_req : Req) (file : File) : RFResult :=
  match storage.s3 with
  | none => .thrown (.typeError "Cannot read properties of null (reading deleteObject)")
  | some client =>
    let p : DeleteParams := { Bucket := file.bucket, Key := file.key }
    .called p (client.deleteBehavior p)

/-! ## Concrete fixtures

Test doubles instantiating the universally quantified collaborators:
a deterministic S3 client, a magic-byte detector recognising the PNG
signature, and an SVG test recognising a leading `<svg`.  They play the
role of the mock backend of `src/test/util/mock-s3.js` and of particular
behaviours of the external sniffing libraries. -/

/-- A deterministic S3 client: one progress event with `total = 68`,
then success with canned location/ETag values. -/
def trivClient : S3Client where
  uploadBehavior := fun _p =>
    { progress := [{ total := 68 }]
      result := .ok { Location := .vstr "loc", ETag := .vstr "etag", VersionId := .vnull } }
  deleteBehavior := fun p => .ok p.Key

/-- A request whose `randomBytes` call succeeds. -/
def req0 : Req := { randomBytes := .ok "00ff" }

/-- A detector double returning `image/png` on the PNG signature
`89 50 4E 47`, nothing otherwise. -/
def pngDetect : Chunk → Option String := fun c =>
  if c.take 4 = [137, 80, 78, 71] then some "image/png" else none

/-- An SVG-test double accepting chunks that begin with `<svg`. -/
def svgCheck : Chunk → Bool := fun c =>
  c.take 4 = [60, 115, 118, 103]

/-- A PNG upload: field `image`, declared mime `image/png`, two chunks
starting with the PNG signature. -/
def pngFile : File :=
  { fieldname := "image", originalname := "a.png", mimetype := "image/png"
    stream := [[137, 80, 78, 71], [1, 2, 3]] }

/-- An SVG upload: a single chunk beginning with `<svg`. -/
def svgFile : File :=
  { fieldname := "image", originalname := "a.svg", mimetype := "image/svg+xml"
    stream := [[60, 115, 118, 103, 62]] }

/-- An upload with an unrecognised byte sequence. -/
def binFile : File :=
  { fieldname := "file", originalname := "a.bin", mimetype := "application/octet-stream"
    stream := [[0, 1]] }

/-- A minimal valid options object, mirroring the repository test's
`VALID_OPTIONS` (`bucket: 'string'`) plus a concrete client. -/
def baseOpts : Opts :=
  { s3 := .obj trivClient
    bucket := .str "test"
    key := .undef
    acl := .undef
    contentType := .undef
    metadata := .undef
    cacheControl := .undef
    contentDisposition := .undef
    storageClass := .undef
    serverSideEncryption := .undef
    sseKmsKeyId := .undef }

/-- A fully concrete adapter using the auto-detect content-type strategy
(with the fixture collaborators) and no transform. -/
def autoStorage : Storage :=
  { s3 := some trivClient
    getBucket := staticValue (.vstr "test")
    getKey := staticValue (.vstr "k1")
    getAcl := staticValue (.vstr "private")
    getContentType := autoContentType pngDetect svgCheck
    getMetadata := staticValue .vnull
    getCacheControl := staticValue .vnull
    getContentDisposition := staticValue .vnull
    getStorageClass := staticValue (.vstr "STANDARD")
    getSSE := staticValue .vnull
    getSSEKMS := staticValue .vnull
    throwMimeTypeConflictErrors := false
    transforms := .noneOpt }

/-! ## Helper lemmas about `collect` -/

theorem collect_ok_contentType (storage : Storage) (req : Req) (file : File)
    (opts : CollectedOpts) (h : collect storage req file = .ok opts) :
    storage.getContentType req file = .ok opts.contentType opts.replacementStream := by
  unfold collect at h
  repeat' split at h
  all_goals simp_all
  cases h
  simp

theorem collect_never_contentType (storage : Storage) (req : Req) (file : File)
    (h : collect storage req file = .never) :
    storage.getContentType req file = .never := by
  unfold collect at h
  repeat' split at h
  all_goals simp_all

theorem collect_err_source (storage : Storage) (req : Req) (file : File)
    (e : JErr) (h : collect storage req file = .err e) :
    storage.getBucket req file = .error e ∨
    storage.getKey req file = .error e ∨
    storage.getAcl req file = .error e ∨
    storage.getMetadata req file = .error e ∨
    storage.getCacheControl req file = .error e ∨
    storage.getContentDisposition req file = .error e ∨
    storage.getStorageClass req file = .error e ∨
    storage.getSSE req file = .error e ∨
    storage.getSSEKMS req file = .error e ∨
    storage.getContentType req file = .err e := by
  unfold collect at h
  repeat' split at h
  all_goals simp_all

/-- Unfolding lemma for the success path of `_handleFile`: once the
attributes are collected and the transform resolved, the remainder is the
mismatch guard followed by the upload delegation. -/
theorem handleFile_ok_unfold (storage : Storage) (req : Req) (file : File)
    (opts : CollectedOpts) (t : Option StreamTransform)
    (hcol : collect storage req file = .ok opts)
    (ht : resolveTransform storage.transforms file.fieldname = .ok t) :
    storage.handleFile req file =
      (let params := mkParams opts (applyTransform t (opts.replacementStream.getD file.stream))
       if storage.throwMimeTypeConflictErrors
           && (opts.contentType != "application/octet-stream")
           && (file.mimetype != opts.contentType) then
         { outcome := .callback (.error (.error
             (mismatchMessage opts.contentType file.mimetype file.originalname)))
           uploadParams := none }
       else
         match storage.s3 with
         | none =>
           { outcome := .thrown (.typeError "Cannot read properties of null (reading upload)")
             uploadParams := none }
         | some client =>
           match (client.uploadBehavior params).result with
           | .error e => { outcome := .callback (.error e), uploadParams := some params }
           | .ok result =>
             { outcome := .callback (.ok {
                 size := trackSize (client.uploadBehavior params).progress
                 bucket := opts.bucket
                 key := opts.key
                 acl := opts.acl
                 contentType := opts.contentType
                 contentDisposition := opts.contentDisposition
                 storageClass := opts.storageClass
                 serverSideEncryption := opts.serverSideEncryption
                 metadata := opts.metadata
                 location := result.Location
                 etag := result.ETag
                 versionId := result.VersionId })
               uploadParams := some params }) := by
  simp only [Storage.handleFile, hcol, ht]

/-! ## Claims -/

/-- Claim C4 — the auto-detect strategy inspects the first chunk and
resolves the mime type in fixed order: a known binary signature wins, a
valid SVG document comes second (`image/svg+xml`), and everything else
falls back to `application/octet-stream`; the replacement stream replays
the first chunk followed by the remainder. -/
theorem c4_autoContentType_classification
    (detect : Chunk → Option String) (svg : Chunk → Bool)
    (req : Req) (file : File) (c : Chunk) (cs : Stream)
    (hs : file.stream = c :: cs) :
    (∀ m, detect c = some m →
      autoContentType detect svg req file = .ok m (some (c :: cs))) ∧
    (detect c = none → svg c = true →
      autoContentType detect svg req file = .ok "image/svg+xml" (some (c :: cs))) ∧
    (detect c = none → svg c = false →
      autoContentType detect svg req file = .ok "application/octet-stream" (some (c :: cs))) := by
  refine ⟨fun m hm => ?_, fun hd hsvg => ?_, fun hd hsvg => ?_⟩ <;>
    simp [autoContentType, autoContentTypeMime, hs, *]

/-- Witness for C4: with the fixture detector and SVG test, a PNG-signed
file resolves to `image/png`, an `<svg`-leading file to `image/svg+xml`,
and an unrecognised file to `application/octet-stream`. -/
theorem c4_autoContentType_classification_witness :
    autoContentType pngDetect svgCheck req0 pngFile =
      .ok "image/png" (some [[137, 80, 78, 71], [1, 2, 3]]) ∧
    autoContentType pngDetect svgCheck req0 svgFile =
      .ok "image/svg+xml" (some [[60, 115, 118, 103, 62]]) ∧
    autoContentType pngDetect svgCheck req0 binFile =
      .ok "application/octet-stream" (some [[0, 1]]) :=
  ⟨(c4_autoContentType_classification pngDetect svgCheck req0 pngFile
      [137, 80, 78, 71] [[1, 2, 3]] rfl).1 "image/png" rfl,
   (c4_autoContentType_classification pngDetect svgCheck req0 svgFile
      [60, 115, 118, 103, 62] [] rfl).2.1 rfl rfl,
   (c4_autoContentType_classification pngDetect svgCheck req0 binFile
      [0, 1] [] rfl).2.2 rfl rfl⟩

/-- Claim C10 — `typeof null` is `'object'`, so construction with a `null`
`s3` option succeeds and stores the null client, while every other
non-object `typeof` (string, number, boolean, undefined, function) makes
construction throw the `TypeError` for `opts.s3`. -/
theorem c10_null_s3_accepted (s : String) (n : Int) (b : Bool) :
    (∃ st, S3Storage { baseOpts with s3 := .nullv } = .ok st ∧ st.s3 = none) ∧
    S3Storage { baseOpts with s3 := .str s } =
      .error (.typeError "Expected opts.s3 to be object") ∧
    S3Storage { baseOpts with s3 := .num n } =
      .error (.typeError "Expected opts.s3 to be object") ∧
    S3Storage { baseOpts with s3 := .boolv b } =
      .error (.typeError "Expected opts.s3 to be object") ∧
    S3Storage { baseOpts with s3 := .undef } =
      .error (.typeError "Expected opts.s3 to be object") ∧
    S3Storage { baseOpts with s3 := .func () } =
      .error (.typeError "Expected opts.s3 to be object") :=
  ⟨⟨_, rfl, rfl⟩, rfl, rfl, rfl, rfl, rfl⟩

/-- Claim C1 — whenever an upload call is made under the auto-detect
content-type strategy, the body handed to the storage collaborator is
the resolved transform applied to a source stream whose concatenated
bytes equal the original stream's bytes exactly; with no transform
configured the body itself is byte-identical to the original stream. -/
theorem c1_upload_body_preserves_bytes
    (detect : Chunk → Option String) (svg : Chunk → Bool)
    (storage : Storage) (req : Req) (file : File) (c : Chunk) (cs : Stream) (p : Params)
    (hct : storage.getContentType = autoContentType detect svg)
    (hs : file.stream = c :: cs)
    (hp : (storage.handleFile req file).uploadParams = some p) :
    ∃ t src, resolveTransform storage.transforms file.fieldname = .ok t ∧
      src.flatten = file.stream.flatten ∧
      p.Body = applyTransform t src ∧
      (storage.transforms = .noneOpt → p.Body.flatten = file.stream.flatten) := by
  cases hcol : collect storage req file with
  | never => simp [Storage.handleFile, hcol] at hp
  | err e => simp [Storage.handleFile, hcol] at hp
  | ok opts =>
    have hctr := collect_ok_contentType storage req file opts hcol
    rw [hct] at hctr
    simp [autoContentType, hs] at hctr
    cases ht : resolveTransform storage.transforms file.fieldname with
    | error e => simp [Storage.handleFile, hcol, ht] at hp
    | ok t =>
      rw [handleFile_ok_unfold storage req file opts t hcol ht] at hp
      have hbody : p.Body = applyTransform t (c :: cs) := by
        rcases hctr with ⟨-, hrepl⟩
        rw [← hrepl] at hp
        split at hp
        · simp at hp
        · split at hp
          · simp at hp
          · dsimp only at hp
            split at hp <;>
              · have := Option.some.inj hp
                rw [← this]
                simp [mkParams]
      refine ⟨t, c :: cs, rfl, by rw [hs], hbody, fun hnone => ?_⟩
      rw [hnone] at ht
      simp only [resolveTransform, Except.ok.injEq] at ht
      rw [hbody, ← ht]
      simp [applyTransform, hs]

/-- The upload params `autoStorage` sends for `pngFile`. -/
def pngParams : Params :=
  { Bucket := .vstr "test"
    Key := .vstr "k1"
    ACL := .vstr "private"
    CacheControl := .vnull
    ContentType := "image/png"
    Metadata := .vnull
    StorageClass := .vstr "STANDARD"
    ServerSideEncryption := .vnull
    SSEKMSKeyId := .vnull
    Body := [[137, 80, 78, 71], [1, 2, 3]]
    ContentDisposition := none }

/-- Witness for C1: the concrete PNG upload through `autoStorage`. -/
theorem c1_upload_body_preserves_bytes_witness :
    ∃ t src, resolveTransform autoStorage.transforms pngFile.fieldname = .ok t ∧
      src.flatten = pngFile.stream.flatten ∧
      pngParams.Body = applyTransform t src ∧
      (autoStorage.transforms = .noneOpt → pngParams.Body.flatten = pngFile.stream.flatten) :=
  c1_upload_body_preserves_bytes pngDetect svgCheck autoStorage req0 pngFile
    [137, 80, 78, 71] [[1, 2, 3]] pngParams rfl rfl (by decide)

/-- Claim C2 — with mismatch enforcement on, a resolved content-type that
is neither the generic fallback nor the declared mime type makes the
operation fail with the exact `MIMETYPE_MISMATCH` message and no upload
call; when the resolved type is the fallback or agrees with the declared
type, no mismatch error occurs and the upload call is made. -/
theorem c2_mimetype_mismatch_guard
    (storage : Storage) (req : Req) (file : File)
    (opts : CollectedOpts) (t : Option StreamTransform)
    (hcol : collect storage req file = .ok opts)
    (ht : resolveTransform storage.transforms file.fieldname = .ok t)
    (henf : storage.throwMimeTypeConflictErrors = true) :
    (opts.contentType ≠ "application/octet-stream" → file.mimetype ≠ opts.contentType →
      storage.handleFile req file =
        { outcome := .callback (.error (.error
            (mismatchMessage opts.contentType file.mimetype file.originalname)))
          uploadParams := none }) ∧
    (∀ client, storage.s3 = some client →
      (opts.contentType = "application/octet-stream" ∨ file.mimetype = opts.contentType) →
      ∃ p, (storage.handleFile req file).uploadParams = some p) := by
  rw [handleFile_ok_unfold storage req file opts t hcol ht]
  constructor
  · intro h1 h2
    simp [henf, bne_iff_ne, h1, h2]
  · intro client hs3 hd
    have hcond : (storage.throwMimeTypeConflictErrors
        && (opts.contentType != "application/octet-stream")
        && (file.mimetype != opts.contentType)) = false := by
      rcases hd with h | h <;> simp [h]
    rw [hs3]
    simp only [hcond, Bool.false_eq_true, if_false]
    split <;> exact ⟨_, rfl⟩

/-- Witness for C2: under enforcement, a file whose declared type is
`application/pdf` but whose detected content is PNG fails with the exact
mismatch message and no upload call, while a file detected as the
generic fallback uploads fine. -/
theorem c2_mimetype_mismatch_guard_witness :
    ({ autoStorage with throwMimeTypeConflictErrors := true }.handleFile req0
        { pngFile with originalname := "a.pdf", mimetype := "application/pdf" } =
      { outcome := .callback (.error (.error
          ("MIMETYPE_MISMATCH: Actual content-type \"image/png\" does not match " ++
           "the mime-type \"application/pdf\" assumed by the file extension for file \"a.pdf\"")))
        uploadParams := none }) ∧
    (∃ p, ({ autoStorage with throwMimeTypeConflictErrors := true }.handleFile req0
        binFile).uploadParams = some p) :=
  ⟨(c2_mimetype_mismatch_guard
      { autoStorage with throwMimeTypeConflictErrors := true } req0
      { pngFile with originalname := "a.pdf", mimetype := "application/pdf" }
      { bucket := .vstr "test", key := .vstr "k1", acl := .vstr "private"
        metadata := .vnull, cacheControl := .vnull, contentDisposition := .vnull
        storageClass := .vstr "STANDARD", contentType := "image/png"
        replacementStream := some [[137, 80, 78, 71], [1, 2, 3]]
        serverSideEncryption := .vnull, sseKmsKeyId := .vnull }
      none rfl rfl rfl).1 (by decide) (by decide),
   (c2_mimetype_mismatch_guard
      { autoStorage with throwMimeTypeConflictErrors := true } req0 binFile
      { bucket := .vstr "test", key := .vstr "k1", acl := .vstr "private"
        metadata := .vnull, cacheControl := .vnull, contentDisposition := .vnull
        storageClass := .vstr "STANDARD", contentType := "application/octet-stream"
        replacementStream := some [[0, 1]]
        serverSideEncryption := .vnull, sseKmsKeyId := .vnull }
      none rfl rfl rfl).2 trivClient rfl (Or.inl rfl)⟩

/-- An adapter whose `transforms` is a per-field map that lacks the
uploaded field's name. -/
def noKeyStorage : Storage := { autoStorage with transforms := .perField [] }

/-- Counterexample to claim C5 as stated: with a per-field `transforms`
map that has no entry for the file's field name, `_handleFile` throws a
synchronous `TypeError` (calling `undefined`) and the completion
callback is invoked zero times — a failure path with no callback
invocation. -/
theorem c5_missing_transform_counterexample :
    (noKeyStorage.handleFile req0 pngFile).outcome =
      .thrown (.typeError "this.transforms[file.fieldname] is not a function") := by
  decide

/-- Claim C5 (amended) — the completion callback is invoked exactly once
(once with an error or once with a result) on every path, provided the
adapter's client is non-null, the transform resolution does not throw
(a per-field map missing the file's field name throws synchronously and
the callback is never invoked), and the content-type strategy completes
(the auto-detect strategy on a stream that emits no data never invokes
its callback, so neither is the completion callback). -/
theorem c5_single_callback_amended
    (storage : Storage) (req : Req) (file : File)
    (client : S3Client) (t : Option StreamTransform)
    (hs3 : storage.s3 = some client)
    (ht : resolveTransform storage.transforms file.fieldname = .ok t)
    (hct : storage.getContentType req file ≠ .never) :
    ∃ r, (storage.handleFile req file).outcome = .callback r := by
  cases hcol : collect storage req file with
  | never => exact absurd (collect_never_contentType storage req file hcol) hct
  | err e => exact ⟨.error e, by simp [Storage.handleFile, hcol]⟩
  | ok opts =>
    rw [handleFile_ok_unfold storage req file opts t hcol ht]
    split
    · exact ⟨_, rfl⟩
    · simp only [hs3]
      split <;> exact ⟨_, rfl⟩

/-- Witness for the amended C5: the concrete PNG upload completes with
exactly one callback invocation. -/
theorem c5_single_callback_amended_witness :
    ∃ r, (autoStorage.handleFile req0 pngFile).outcome = .callback r :=
  c5_single_callback_amended autoStorage req0 pngFile trivClient none
    rfl rfl (by decide)

/-- Counterexample to claim C3 as stated: the claim says every
per-attribute option accepts a constant value or a callback, but a
constant string for `key` (the repository test's own "string key" case)
makes construction throw a `TypeError`. -/
theorem c3_constant_key_counterexample :
    S3Storage { baseOpts with key := .str "string" } =
      .error (.typeError "Expected opts.key to be undefined or function") :=
  rfl

/-- Claim C3 (amended) — construction accepts a two-argument callback for
every per-attribute option; a constant string is additionally accepted
for `bucket`, `acl`, `cacheControl`, `contentDisposition`,
`storageClass`, `serverSideEncryption` and `sseKmsKeyId`, while a
constant for `key`, `contentType` or `metadata` throws a `TypeError`;
every recognized option of an unsupported type (e.g. a number) throws a
type error synchronously at construction; `bucket` is required and its
absence fails construction. -/
theorem c3_option_validation_amended (f : Strategy) (ct : CTStrategy) (s : String) (n : Int) :
    ((S3Storage { baseOpts with bucket := .func f }).isOk = true ∧
     (S3Storage { baseOpts with key := .func f }).isOk = true ∧
     (S3Storage { baseOpts with acl := .func f }).isOk = true ∧
     (S3Storage { baseOpts with contentType := .func ct }).isOk = true ∧
     (S3Storage { baseOpts with metadata := .func f }).isOk = true ∧
     (S3Storage { baseOpts with cacheControl := .func f }).isOk = true ∧
     (S3Storage { baseOpts with contentDisposition := .func f }).isOk = true ∧
     (S3Storage { baseOpts with storageClass := .func f }).isOk = true ∧
     (S3Storage { baseOpts with serverSideEncryption := .func f }).isOk = true ∧
     (S3Storage { baseOpts with sseKmsKeyId := .func f }).isOk = true) ∧
    ((S3Storage { baseOpts with bucket := .str s }).isOk = true ∧
     (S3Storage { baseOpts with acl := .str s }).isOk = true ∧
     (S3Storage { baseOpts with cacheControl := .str s }).isOk = true ∧
     (S3Storage { baseOpts with contentDisposition := .str s }).isOk = true ∧
     (S3Storage { baseOpts with storageClass := .str s }).isOk = true ∧
     (S3Storage { baseOpts with serverSideEncryption := .str s }).isOk = true ∧
     (S3Storage { baseOpts with sseKmsKeyId := .str s }).isOk = true) ∧
    (S3Storage { baseOpts with key := .str s } =
       .error (.typeError "Expected opts.key to be undefined or function") ∧
     S3Storage { baseOpts with contentType := .str s } =
       .error (.typeError "Expected opts.contentType to be undefined or function") ∧
     S3Storage { baseOpts with metadata := .str s } =
       .error (.typeError "Expected opts.metadata to be undefined or function")) ∧
    (S3Storage { baseOpts with s3 := .num n } =
       .error (.typeError "Expected opts.s3 to be object") ∧
     S3Storage { baseOpts with bucket := .num n } =
       .error (.typeError "Expected opts.bucket to be undefined, string or function") ∧
     S3Storage { baseOpts with key := .num n } =
       .error (.typeError "Expected opts.key to be undefined or function") ∧
     S3Storage { baseOpts with acl := .num n } =
       .error (.typeError "Expected opts.acl to be undefined, string or function") ∧
     S3Storage { baseOpts with contentType := .num n } =
       .error (.typeError "Expected opts.contentType to be undefined or function") ∧
     S3Storage { baseOpts with metadata := .num n } =
       .error (.typeError "Expected opts.metadata to be undefined or function") ∧
     S3Storage { baseOpts with cacheControl := .num n } =
       .error (.typeError "Expected opts.cacheControl to be undefined, string or function") ∧
     S3Storage { baseOpts with contentDisposition := .num n } =
       .error (.typeError "Expected opts.contentDisposition to be undefined, string or function") ∧
     S3Storage { baseOpts with storageClass := .num n } =
       .error (.typeError "Expected opts.storageClass to be undefined, string or function") ∧
     S3Storage { baseOpts with serverSideEncryption := .num n } =
       .error (.typeError "Expected opts.serverSideEncryption to be undefined, string or function") ∧
     S3Storage { baseOpts with sseKmsKeyId := .num n } =
       .error (.typeError "Expected opts.sseKmsKeyId to be undefined, string, or function")) ∧
    S3Storage { baseOpts with bucket := .undef } = .error (.error "bucket is required") :=
  ⟨⟨rfl, rfl, rfl, rfl, rfl, rfl, rfl, rfl, rfl, rfl⟩,
   ⟨rfl, rfl, rfl, rfl, rfl, rfl, rfl⟩,
   ⟨rfl, rfl, rfl⟩,
   ⟨rfl, rfl, rfl, rfl, rfl, rfl, rfl, rfl, rfl, rfl, rfl⟩,
   rfl⟩

/-- An adapter whose `acl` strategy fails. -/
def errStorage : Storage :=
  { autoStorage with getAcl := fun _req _file => .error (.error "acl boom") }

/-- Claim C6 — when attribute resolution fails, the first error is surfaced
to the caller as-is (one callback invocation carrying exactly that
error), no upload call is made, and the error is one actually produced
by a strategy (one of the nine concurrent ones or the content-type
strategy). -/
theorem c6_strategy_error_aborts (storage : Storage) (req : Req) (file : File) :
    (∀ e, collect storage req file = .err e →
      storage.handleFile req file =
        { outcome := .callback (.error e), uploadParams := none }) ∧
    (∀ e, collect storage req file = .err e →
      storage.getBucket req file = .error e ∨
      storage.getKey req file = .error e ∨
      storage.getAcl req file = .error e ∨
      storage.getMetadata req file = .error e ∨
      storage.getCacheControl req file = .error e ∨
      storage.getContentDisposition req file = .error e ∨
      storage.getStorageClass req file = .error e ∨
      storage.getSSE req file = .error e ∨
      storage.getSSEKMS req file = .error e ∨
      storage.getContentType req file = .err e) :=
  ⟨fun _e h => by simp [Storage.handleFile, h],
   fun e h => collect_err_source storage req file e h⟩

/-- Witness for C6: a failing `acl` strategy aborts the upload with the
strategy's own error and no upload call. -/
theorem c6_strategy_error_aborts_witness :
    errStorage.handleFile req0 pngFile =
      { outcome := .callback (.error (.error "acl boom")), uploadParams := none } :=
  (c6_strategy_error_aborts errStorage req0 pngFile).1 (.error "acl boom") rfl

/-- A transform that appends one extra chunk. -/
def sharedT : StreamTransform := fun s => s ++ [[9]]

/-- An adapter with a single shared transform factory. -/
def sharedStorage : Storage := { autoStorage with transforms := .shared sharedT }

/-- The resolved attribute set for `pngFile` through `autoStorage`'s
strategies. -/
def pngOpts : CollectedOpts :=
  { bucket := .vstr "test", key := .vstr "k1", acl := .vstr "private"
    metadata := .vnull, cacheControl := .vnull, contentDisposition := .vnull
    storageClass := .vstr "STANDARD", contentType := "image/png"
    replacementStream := some [[137, 80, 78, 71], [1, 2, 3]]
    serverSideEncryption := .vnull, sseKmsKeyId := .vnull }

/-- The upload params `sharedStorage` sends for `pngFile`: the body has
passed through `sharedT`. -/
def pngSharedParams : Params :=
  { pngParams with Body := [[137, 80, 78, 71], [1, 2, 3], [9]] }

/-- Claim C7 — exactly one transform instance is inserted between the
effective source stream (replacement if present, else the original) and
the upload body: the shared factory's instance, or the per-field one
keyed by the file's field name; a per-field map lacking the field's name
throws deterministically (no callback, no upload); with no transform the
body is the source stream unmodified. -/
theorem c7_transform_pipeline (storage : Storage) (req : Req) (file : File)
    (opts : CollectedOpts) (hcol : collect storage req file = .ok opts) :
    (∀ t, storage.transforms = .shared t →
      ∀ p, (storage.handleFile req file).uploadParams = some p →
        p.Body = t (opts.replacementStream.getD file.stream)) ∧
    (∀ m t, storage.transforms = .perField m → m.lookup file.fieldname = some t →
      ∀ p, (storage.handleFile req file).uploadParams = some p →
        p.Body = t (opts.replacementStream.getD file.stream)) ∧
    (∀ m, storage.transforms = .perField m → m.lookup file.fieldname = none →
      storage.handleFile req file =
        { outcome := .thrown (.typeError "this.transforms[file.fieldname] is not a function")
          uploadParams := none }) ∧
    (storage.transforms = .noneOpt →
      ∀ p, (storage.handleFile req file).uploadParams = some p →
        p.Body = opts.replacementStream.getD file.stream) := by
  have key : ∀ t, resolveTransform storage.transforms file.fieldname = .ok t →
      ∀ p, (storage.handleFile req file).uploadParams = some p →
        p.Body = applyTransform t (opts.replacementStream.getD file.stream) := by
    intro t ht p hp
    rw [handleFile_ok_unfold storage req file opts t hcol ht] at hp
    split at hp
    · simp at hp
    · split at hp
      · simp at hp
      · simp only [] at hp
        split at hp <;>
          · have := Option.some.inj hp
            rw [← this]
            simp [mkParams]
  refine ⟨fun t htr p hp => ?_, fun m t hm hl p hp => ?_, fun m hm hl => ?_,
    fun hn p hp => ?_⟩
  · simpa [applyTransform] using key (some t) (by simp [resolveTransform, htr]) p hp
  · simpa [applyTransform] using key (some t) (by simp [resolveTransform, hm, hl]) p hp
  · simp [Storage.handleFile, hcol, resolveTransform, hm, hl]
  · simpa [applyTransform] using key none (by simp [resolveTransform, hn]) p hp

/-- Witness for C7: the shared transform's single instance is what the
upload body went through for the concrete PNG upload. -/
theorem c7_transform_pipeline_witness :
    pngSharedParams.Body = sharedT (pngOpts.replacementStream.getD pngFile.stream) :=
  (c7_transform_pipeline sharedStorage req0 pngFile pngOpts rfl).1
    sharedT rfl pngSharedParams (by decide)

/-- The total carried by the last progress notification whose `total`
was truthy, `0` when no notification reported one. -/
def lastReportedTotal (events : List ProgressEvent) : Nat :=
  match events.reverse.find? (fun ev => ev.total != 0) with
  | some ev => ev.total
  | none => 0

theorem foldl_track (a : Nat) (l : List ProgressEvent) :
    l.foldl (fun acc ev => if ev.total != 0 then ev.total else acc) a =
      match l.reverse.find? (fun ev => ev.total != 0) with
      | some ev => ev.total
      | none => a := by
  induction l generalizing a with
  | nil => simp
  | cons e es ih =>
    rw [List.foldl_cons, ih]
    rcases hf : es.reverse.find? (fun ev => ev.total != 0) with _ | ev
    · by_cases he : e.total = 0
      · simp [List.reverse_cons, List.find?_append, hf, he]
      · simp [List.reverse_cons, List.find?_append, hf, he, bne_iff_ne]
    · simp [List.reverse_cons, List.find?_append, hf]

/-- Lemma: `trackSize` (the `currentSize` fold starting at `0`) computes the
last reported truthy total. -/
theorem trackSize_eq_lastReportedTotal (l : List ProgressEvent) :
    trackSize l = lastReportedTotal l := by
  rw [trackSize, lastReportedTotal, foldl_track]

/-- Claim C8 — on every successful store operation, the result's `size`
equals the total of the last progress notification that reported a
truthy total (last-reported total wins), starting from `0` before any
notification. -/
theorem c8_size_last_total (storage : Storage) (req : Req) (file : File)
    (client : S3Client) (r : UploadResult) (p : Params)
    (hs3 : storage.s3 = some client)
    (hcb : (storage.handleFile req file).outcome = .callback (.ok r))
    (hp : (storage.handleFile req file).uploadParams = some p) :
    r.size = lastReportedTotal (client.uploadBehavior p).progress := by
  cases hcol : collect storage req file with
  | never => simp [Storage.handleFile, hcol] at hcb
  | err e => simp [Storage.handleFile, hcol] at hcb
  | ok opts =>
    cases ht : resolveTransform storage.transforms file.fieldname with
    | error e => simp [Storage.handleFile, hcol, ht] at hcb
    | ok t =>
      rw [handleFile_ok_unfold storage req file opts t hcol ht] at hcb hp
      split at hcb
      · simp at hcb
      · simp only [hs3] at hcb hp
        split at hcb <;> split at hp <;>
          try simp_all [trackSize_eq_lastReportedTotal]
        subst hcb
        rfl

/-- Witness for C8: the fixture client reports one progress event with
`total = 68`, and the result's size is `68`. -/
theorem c8_size_last_total_witness :
    (68 : Nat) =
      lastReportedTotal (trivClient.uploadBehavior pngParams).progress :=
  c8_size_last_total autoStorage req0 pngFile trivClient
    { size := 68, bucket := .vstr "test", key := .vstr "k1", acl := .vstr "private"
      contentType := "image/png", contentDisposition := .vnull
      storageClass := .vstr "STANDARD", serverSideEncryption := .vnull
      metadata := .vnull, location := .vstr "loc", etag := .vstr "etag"
      versionId := .vnull }
    pngParams rfl (by decide) (by decide)

/-- Claim C9 — removal delegates exactly one `deleteObject` call carrying
exactly the file record's bucket and key, surfaces the collaborator's
callback outcome unchanged, and reads no other adapter state (any
adapter with the same client removes identically). -/
theorem c9_remove_delegates (storage : Storage) (req : Req) (file : File)
    (client : S3Client) (hs3 : storage.s3 = some client) :
    storage.removeFile req file =
      .called { Bucket := file.bucket, Key := file.key }
        (client.deleteBehavior { Bucket := file.bucket, Key := file.key }) ∧
    (∀ storage₂ : Storage, storage₂.s3 = some client →
      storage₂.removeFile req file = storage.removeFile req file) := by
  constructor
  · simp [Storage.removeFile, hs3]
  · intro storage₂ hs3₂
    simp [Storage.removeFile, hs3, hs3₂]

/-- Witness for C9: removing a stored file record through the fixture
client calls `deleteObject` with that record's bucket and key and
surfaces the client's outcome (here: success carrying the key). -/
theorem c9_remove_delegates_witness :
    autoStorage.removeFile req0
        { pngFile with bucket := .vstr "b1", key := .vstr "k9" } =
      .called { Bucket := .vstr "b1", Key := .vstr "k9" }
        (trivClient.deleteBehavior { Bucket := .vstr "b1", Key := .vstr "k9" }) ∧
    (∀ storage₂ : Storage, storage₂.s3 = some trivClient →
      storage₂.removeFile req0 { pngFile with bucket := .vstr "b1", key := .vstr "k9" } =
        autoStorage.removeFile req0 { pngFile with bucket := .vstr "b1", key := .vstr "k9" }) :=
  c9_remove_delegates autoStorage req0
    { pngFile with bucket := .vstr "b1", key := .vstr "k9" } trivClient rfl

end MulterS3
